import Mathlib

/-!
Verification development for the typed-property engine and the tracked-controls
button/axis state machine of the A-Frame repository snapshot.

The embedding covers `src/core/propertyTypes.js` and
`src/components/tracked-controls.js`.  JavaScript values are modelled by a
two-level value type `JSVal`: primitives, flat arrays of primitives, and flat
objects with primitive fields.  These are exactly the value shapes that flow
through the property-type API (scalars, vectors as flat records, arrays of
strings or DOM elements); deeper nesting never occurs there.  JS numbers are
modelled as `JSNum`: an exact rational (every IEEE double is a dyadic rational,
hence exactly representable) plus NaN and the two infinities, so that the
`typeof`-versus-finiteness distinction and the `NaN !== NaN` comparison rule of
the source survive the translation.
-/

/-- A JavaScript number: a finite value (exact rational), NaN, or ±Infinity. -/
inductive JSNum where
  | finite (q : Rat)
  | nan
  | posInf
  | negInf
deriving DecidableEq

/-- The face a DOM element shows to this code: its tag name and its `id` /
`src` attributes (`getAttribute` returns null, modelled `none`, when absent). -/
structure DomElement where
  tagName : String
  idAttr : Option String
  srcAttr : Option String
deriving DecidableEq

/-- A primitive JavaScript value, plus DOM element handles (which the property
system passes around as opaque values). -/
inductive JSPrim where
  | null
  | undefined
  | bool (b : Bool)
  | num (n : JSNum)
  | str (s : String)
  | elem (e : DomElement)
deriving DecidableEq

/-- A JavaScript value as used by the property system: a primitive, a flat
array of primitives, or a flat object with primitive-valued fields. -/
inductive JSVal where
  | prim (p : JSPrim)
  | arr (xs : List JSPrim)
  | obj (fields : List (String × JSPrim))
deriving DecidableEq

def jstr (s : String) : JSVal := .prim (.str s)

def jbool (b : Bool) : JSVal := .prim (.bool b)

def jsNull : JSVal := .prim .null

def jsUndefined : JSVal := .prim .undefined

/-- Rational built from numerator and denominator (`mkRat` normalizes). -/
def jrat (n : Int) (d : Nat) : JSVal := .prim (.num (.finite (mkRat n d)))

/-- JavaScript strict equality on numbers: `NaN !== NaN`; finite values and
infinities compare by value. -/
def jsNumEq : JSNum → JSNum → Bool
  | .finite a, .finite b => decide (a = b)
  | .posInf, .posInf => true
  | .negInf, .negInf => true
  | _, _ => false

/-- `typeof` for primitive values (`typeof null` is `"object"` in JS). -/
def jsTypeofP : JSPrim → String
  | .null => "object"
  | .undefined => "undefined"
  | .bool _ => "boolean"
  | .num _ => "number"
  | .str _ => "string"
  | .elem _ => "object"

/-- `typeof` for any value; arrays and plain objects are `"object"`. -/
def jsTypeof : JSVal → String
  | .prim p => jsTypeofP p
  | .arr _ => "object"
  | .obj _ => "object"

/-- JavaScript truthiness: `null`, `undefined`, `false`, `0`, `NaN` and the
empty string are falsy; every object or array is truthy. -/
def jsTruthy : JSVal → Bool
  | .prim .null => false
  | .prim .undefined => false
  | .prim (.bool b) => b
  | .prim (.num (.finite q)) => decide (q.num ≠ 0)
  | .prim (.num .nan) => false
  | .prim (.num _) => true
  | .prim (.str s) => decide (s ≠ "")
  | .prim (.elem _) => true
  | .arr _ => true
  | .obj _ => true

/-- Strict equality `===` on primitives.  Numbers go through `jsNumEq`
(`NaN !== NaN`); any other pair compares structurally.  For `elem` values this
identifies a DOM reference with the attributes it exposes, which is adequate
here because the embedding never creates two distinct elements with identical
attributes. -/
def jsStrictEqP (a b : JSPrim) : Bool :=
  match a, b with
  | .num x, .num y => jsNumEq x y
  | x, y => decide (x = y)

/-- Strict equality `===` on values.  On arrays/objects JS compares references;
the embedding identifies a reference with its contents, which coincides with JS
on every comparison the source performs (those operands are either primitives
or the very same reference). -/
def jsStrictEq (a b : JSVal) : Bool :=
  match a, b with
  | .prim x, .prim y => jsStrictEqP x y
  | .arr xs, .arr ys => decide (xs = ys)
  | .obj xs, .obj ys => decide (xs = ys)
  | _, _ => false

/-- How many times `p` divides `n` (fuel-driven, called with fuel `n`). -/
def natMultiplicity (p : Nat) : Nat → Nat → Nat
  | 0, _ => 0
  | fuel + 1, n => if n % p == 0 && p ≤ n then natMultiplicity p fuel (n / p) + 1 else 0

def repeatChar : Nat → Char → List Char
  | 0, _ => []
  | n + 1, c => c :: repeatChar n c

def padZeros (s : String) (k : Nat) : String :=
  String.mk (repeatChar (k - s.length) '0') ++ s

/-- `Number.prototype.toString` for the modelled numbers.  Every IEEE double is
a dyadic rational, whose decimal expansion terminates; for those values this
prints the exact shortest decimal, matching JS output on the values the claims
exercise.  The final branch (non-terminating expansion) is outside the image of
the doubles and is never reached. -/
def ratToString (q : Rat) : String :=
  let d := q.den
  let a := natMultiplicity 2 d d
  let b := natMultiplicity 5 d d
  let sgn := if q.num < 0 then "-" else ""
  let m := q.num.natAbs
  if 2 ^ a * 5 ^ b = d then
    let k := max a b
    let scaled := m * (10 ^ k / d)
    if k = 0 then sgn ++ Nat.repr scaled
    else sgn ++ Nat.repr (scaled / 10 ^ k) ++ "." ++ padZeros (Nat.repr (scaled % 10 ^ k)) k
  else
    sgn ++ Nat.repr m ++ "/" ++ Nat.repr d

def numToString : JSNum → String
  | .finite q => ratToString q
  | .nan => "NaN"
  | .posInf => "Infinity"
  | .negInf => "-Infinity"

/-- String conversion of a primitive (the `ToString` abstract operation). -/
def primToString : JSPrim → String
  | .null => "null"
  | .undefined => "undefined"
  | .bool true => "true"
  | .bool false => "false"
  | .num n => numToString n
  | .str s => s
  | .elem _ => "[object HTMLElement]"

/-- Element conversion used by `Array.prototype.join`: null and undefined
become the empty string. -/
def joinElemStr (p : JSPrim) : String :=
  match p with
  | .null => ""
  | .undefined => ""
  | q => primToString q

/-- String conversion of a value: arrays join their elements with `","`
(`Array.prototype.toString`), plain objects print `"[object Object]"`. -/
def jsToString : JSVal → String
  | .prim p => primToString p
  | .arr xs => String.intercalate "," (xs.map joinElemStr)
  | .obj _ => "[object Object]"

def jsWhitespace (c : Char) : Bool := c.isWhitespace

def digitsVal (ds : List Char) : Nat := ds.foldl (fun a c => a * 10 + (c.toNat - 48)) 0

/-- `parseInt(s, 10)`: skip leading whitespace, optional sign, then the longest
digit run; no digits means NaN.  (With an explicit radix of 10 there is no hex
special case.) -/
def strParseInt (s : String) : JSNum :=
  let cs := s.data.dropWhile jsWhitespace
  let sgn : Int := match cs with
    | '-' :: _ => -1
    | _ => 1
  let cs2 := match cs with
    | '-' :: rest => rest
    | '+' :: rest => rest
    | _ => cs
  let ds := cs2.takeWhile Char.isDigit
  if ds.isEmpty then .nan
  else .finite (mkRat (sgn * (digitsVal ds : Int)) 1)

/-- `parseFloat(s)`: whitespace, sign, `Infinity`, or decimal digits with an
optional fractional part.  Exponent notation never reaches this code in the
modelled scenarios and is not represented. -/
def strParseFloat (s : String) : JSNum :=
  let cs := s.data.dropWhile jsWhitespace
  let sgn : Int := match cs with
    | '-' :: _ => -1
    | _ => 1
  let cs2 := match cs with
    | '-' :: rest => rest
    | '+' :: rest => rest
    | _ => cs
  if "Infinity".data.isPrefixOf cs2 then (if sgn < 0 then .negInf else .posInf)
  else
    let ip := cs2.takeWhile Char.isDigit
    let rest := cs2.drop ip.length
    let fp := match rest with
      | '.' :: r => r.takeWhile Char.isDigit
      | _ => []
    if ip.isEmpty && fp.isEmpty then .nan
    else .finite (mkRat (sgn * ((digitsVal ip * 10 ^ fp.length + digitsVal fp : Nat) : Int)) (10 ^ fp.length))

/-- Split a character list at every character satisfying `p` (the separators
are dropped; empty groups are kept, as in `String.prototype.split`). -/
def splitWhen (p : Char → Bool) (cs : List Char) : List (List Char) :=
  match cs with
  | [] => [[]]
  | x :: rest =>
    let r := splitWhen p rest
    if p x then [] :: r
    else match r with
      | [] => [[x]]
      | g :: gs => (x :: g) :: gs

def trimChars (cs : List Char) : List Char :=
  ((cs.dropWhile jsWhitespace).reverse.dropWhile jsWhitespace).reverse

/-- `String.prototype.trim`. -/
def trimStr (s : String) : String := String.mk (trimChars s.data)

/-- Index just past the last occurrence of `c`, or none. -/
def lastIdxOf (c : Char) : List Char → Option Nat
  | [] => none
  | x :: rest =>
    match lastIdxOf c rest with
    | some i => some (i + 1)
    | none => if x = c then some 0 else none

/-- First index at which `pat` occurs as a contiguous run, or none. -/
def findSubIdx (pat : List Char) : List Char → Option Nat
  | [] => if pat.isEmpty then some 0 else none
  | x :: rest =>
    if pat.isPrefixOf (x :: rest) then some 0
    else (findSubIdx pat rest).map (· + 1)

/-!
Embedding of `src/core/propertyTypes.js`.  The registry is an association list
built by `registerPropertyType`; the process-global `document` consulted by the
asset/selector parsers is passed explicitly as a `Document` value.
-/

/-- The slice of the DOM the parsers consult: `getElementById`,
`querySelector`, `querySelectorAll`. -/
structure Document where
  byId : String → Option DomElement
  query : String → Option DomElement
  queryAll : String → List DomElement

instance {ε α : Type} [DecidableEq ε] [DecidableEq α] : DecidableEq (Except ε α) := fun a b =>
  match a, b with
  | .ok x, .ok y =>
    if h : x = y then .isTrue (by rw [h]) else .isFalse (by intro hc; cases hc; exact h rfl)
  | .error x, .error y =>
    if h : x = y then .isTrue (by rw [h]) else .isFalse (by intro hc; cases hc; exact h rfl)
  | .ok _, .error _ => .isFalse (by intro hc; cases hc)
  | .error _, .ok _ => .isFalse (by intro hc; cases hc)

/-- A parse function as stored in the registry: ambient document, the raw
value, and the schema-declared default (used only by the vector parser). -/
abbrev ParseFn := Document → JSVal → JSVal → JSVal

/-- A stringify function; `Except` carries the thrown `TypeError` when the
source would crash (e.g. `null.getAttribute`). -/
abbrev StringifyFn := JSVal → Except String JSVal

abbrev EqualsFn := JSVal → JSVal → Bool

def defaultParse (value : JSVal) : JSVal := value

/-- `defaultStringify`: the literal string `"null"` for null, otherwise
`value.toString()` — which throws on `undefined` (only `null` is
special-cased by the source). -/
def defaultStringify (value : JSVal) : Except String JSVal :=
  match value with
  | .prim .null => .ok (jstr "null")
  | .prim .undefined => .error "TypeError: Cannot read properties of undefined"
  | v => .ok (jstr (jsToString v))

def defaultEquals (a b : JSVal) : Bool := jsStrictEq a b

def defaultParseFn : ParseFn := fun _ value _ => defaultParse value

/-- A registered property type descriptor (name → this, in the registry). -/
structure PropertyTypeDescriptor where
  defaultValue : JSVal
  parse : ParseFn
  stringify : StringifyFn
  equals : EqualsFn
  isCacheable : Bool

abbrev Registry := List (String × PropertyTypeDescriptor)

/-- `registerPropertyType(type, defaultValue, parse, stringify, equals,
cacheable)`: throws if `type` is already present, otherwise inserts a
descriptor, with missing functions falling back to the defaults and
`isCacheable := cacheable !== false`. -/
def registerPropertyType (r : Registry) (type : String) (defaultValue : JSVal)
    (parse : Option ParseFn) (stringify : Option StringifyFn)
    (equals : Option EqualsFn) (cacheable : Option Bool) : Except String Registry :=
  if (r.lookup type).isSome then
    .error ("Property type " ++ type ++ " is already registered.")
  else
    .ok (r ++ [(type,
      { defaultValue := defaultValue
        parse := match parse with | some p => p | none => defaultParseFn
        stringify := match stringify with | some s => s | none => defaultStringify
        equals := match equals with | some e => e | none => defaultEquals
        isCacheable := cacheable != some false })])

/-- The registry state after a `registerPropertyType` call as the process sees
it: a throw propagates out of the call before any insertion, leaving the table
as it was. -/
def regStep (r : Registry) (type : String) (defaultValue : JSVal)
    (parse : Option ParseFn) (stringify : Option StringifyFn)
    (equals : Option EqualsFn) (cacheable : Option Bool) : Registry :=
  match registerPropertyType r type defaultValue parse stringify equals cacheable with
  | .ok r2 => r2
  | .error _ => r

/-- `arrayParse`: arrays pass through; the falsy check precedes the
string-splitting branch, so the empty string (the only falsy string) yields
`[]`; non-empty strings split on commas with each segment trimmed; every other
value yields `[]`. -/
def arrayParse (value : JSVal) : JSVal :=
  match value with
  | .arr xs => .arr xs
  | .prim (.str s) =>
    if s = "" then .arr []
    else .arr ((splitWhen (fun c => c = ',') s.data).map fun g => .str (trimStr (String.mk g)))
  | _ => .arr []

/-- `arrayStringify`: `value.join(', ')`; calling it on a non-array throws. -/
def arrayStringify (value : JSVal) : Except String JSVal :=
  match value with
  | .arr xs => .ok (jstr (String.intercalate ", " (xs.map joinElemStr)))
  | _ => .error "TypeError: value.join is not a function"

/-- `arrayEquals`: non-array operands fall back to `===`; arrays compare
length first, then element-wise with `===`. -/
def arrayEquals (a b : JSVal) : Bool :=
  match a, b with
  | .arr xs, .arr ys =>
    decide (xs.length = ys.length) && (xs.zip ys).all fun p => jsStrictEqP p.1 p.2
  | x, y => jsStrictEq x y

/-- The regex `/url\((.+)\)/`: unanchored, greedy — the capture runs from the
first `url(` to the last `)` and must be non-empty. -/
def urlMatch (s : String) : Option String :=
  match findSubIdx "url(".data s.data with
  | none => none
  | some i =>
    let rest := s.data.drop (i + 4)
    match lastIdxOf ')' rest with
    | some j => if 0 < j then some (String.mk (rest.take j)) else none
    | none => none

/-- `el.getAttribute('src')`: the attribute string, or null when absent. -/
def getAttrSrc (el : DomElement) : JSVal :=
  match el.srcAttr with
  | some v => jstr v
  | none => jsNull

/-- `assetParse`: non-strings (elements) pass through; `url(<body>)` unwraps;
a leading `#` resolves by id — media elements pass through as handles, other
elements resolve to their `src` attribute, and a lookup miss warns and returns
undefined; any other string is returned unchanged. -/
def assetParse (doc : Document) (value : JSVal) : JSVal :=
  match value with
  | .prim (.str s) =>
    match urlMatch s with
    | some body => jstr body
    | none =>
      match s.data with
      | '#' :: restId =>
        match doc.byId (String.mk restId) with
        | some el =>
          if el.tagName == "CANVAS" || el.tagName == "VIDEO" || el.tagName == "IMG" then
            .prim (.elem el)
          else getAttrSrc el
        | none => jsUndefined
      | _ => jstr s
  | v => v

/-- `assetStringify`: an element with a truthy id stringifies as `"#" + id`,
one without as its `src` attribute; non-elements use `defaultStringify`;
null/undefined throw on the `getAttribute` access. -/
def assetStringify (value : JSVal) : Except String JSVal :=
  match value with
  | .prim (.elem el) =>
    match el.idAttr with
    | some i => if i = "" then .ok (getAttrSrc el) else .ok (jstr ("#" ++ i))
    | none => .ok (getAttrSrc el)
  | .prim .null => .error "TypeError: Cannot read properties of null"
  | .prim .undefined => .error "TypeError: Cannot read properties of undefined"
  | v => defaultStringify v

/-- `boolParse`: `value !== 'false' && value !== false`. -/
def boolParse (value : JSVal) : JSVal :=
  jbool (!(jsStrictEq value (jstr "false")) && !(jsStrictEq value (jbool false)))

/-- `intParse`: `parseInt(value, 10)` (which string-coerces its argument). -/
def intParse (value : JSVal) : JSVal := .prim (.num (strParseInt (jsToString value)))

/-- `numberParse`: `parseFloat(value)` (which string-coerces its argument). -/
def numberParse (value : JSVal) : JSVal := .prim (.num (strParseFloat (jsToString value)))

/-- The regex `/[,> .[\]:]/` used to tell plain `#id` selectors apart from
structural ones. -/
def nonCharTest (s : String) : Bool :=
  s.data.any fun c =>
    c = ',' || c = '>' || c = ' ' || c = '.' || c = '[' || c = ']' || c = ':'

def elemOrNull (e : Option DomElement) : JSVal :=
  match e with
  | some el => .prim (.elem el)
  | none => jsNull

/-- `selectorParse`: falsy input gives null; non-strings pass through; a plain
`#id` string (no structural selector characters) uses `getElementById`, any
other string uses `querySelector`. -/
def selectorParse (doc : Document) (value : JSVal) : JSVal :=
  if !(jsTruthy value) then jsNull
  else match value with
    | .prim (.str s) =>
      match s.data with
      | '#' :: restId =>
        if !(nonCharTest s) then elemOrNull (doc.byId (String.mk restId))
        else elemOrNull (doc.query s)
      | _ => elemOrNull (doc.query s)
    | v => v

/-- `selectorAllParse`: falsy input gives null; non-strings pass through;
strings resolve via `querySelectorAll`, sliced to a real array. -/
def selectorAllParse (doc : Document) (value : JSVal) : JSVal :=
  if !(jsTruthy value) then jsNull
  else match value with
    | .prim (.str s) => .arr ((doc.queryAll s).map fun el => .elem el)
    | v => v

/-- `selectorStringify`: elements stringify as `'#' + getAttribute('id')`
(string concatenation coerces a null attribute to `"null"`); non-elements use
`defaultStringify`; null/undefined throw on the `getAttribute` access. -/
def selectorStringify (value : JSVal) : Except String JSVal :=
  match value with
  | .prim (.elem el) =>
    .ok (jstr ("#" ++ (match el.idAttr with | some i => i | none => "null")))
  | .prim .null => .error "TypeError: Cannot read properties of null"
  | .prim .undefined => .error "TypeError: Cannot read properties of undefined"
  | v => defaultStringify v

/-- The `'#' + element.getAttribute('id')` step of `selectorAllStringify`;
a non-element entry makes the `getAttribute` call throw. -/
def elemIdHash (p : JSPrim) : Except String String :=
  match p with
  | .elem el => .ok ("#" ++ (match el.idAttr with | some i => i | none => "null"))
  | _ => .error "TypeError: getAttribute is not a function"

/-- `selectorAllStringify`: an array maps each element to `'#' + id` and joins
with `", "`; anything else uses `defaultStringify`. -/
def selectorAllStringify (value : JSVal) : Except String JSVal :=
  match value with
  | .arr xs =>
    match xs.mapM elemIdHash with
    | .ok ss => .ok (jstr (String.intercalate ", " ss))
    | .error e => .error e
  | v => defaultStringify v

/-- `srcParse`: logs a deprecation warning (a side channel not modelled here;
no claim concerns it) and delegates to `assetParse`. -/
def srcParse (doc : Document) (value : JSVal) : JSVal := assetParse doc value

def isSepChar (c : Char) : Bool := c = ' ' || c = ','

/-- Modelled from the spec: the Coordinate Codec parse of `utils/coordinates.js`
(a file not under `src/`): "accepts a string of comma/space-separated numbers
or a structured vector; unspecified components keep the type's default
component values."  The result carries exactly the component fields the
declared default carries (arity is part of the type identity). -/
def coordParse (value defaultValue : JSVal) : JSVal :=
  let defFields := match defaultValue with | .obj fs => fs | _ => []
  match value with
  | .obj fs =>
    .obj (defFields.map fun kv =>
      (kv.1, match fs.lookup kv.1 with
             | some (.num n) => .num n
             | _ => kv.2))
  | .prim (.str s) =>
    let toks := (splitWhen isSepChar s.data).filter fun g => !(g.isEmpty)
    .obj (coordAssign defFields toks)
  | _ => .obj defFields
where
  coordAssign : List (String × JSPrim) → List (List Char) → List (String × JSPrim)
    | [], _ => []
    | kv :: rest, [] => kv :: coordAssign rest []
    | kv :: rest, t :: ts => (kv.1, .num (strParseFloat (String.mk t))) :: coordAssign rest ts

/-- Modelled from the spec: the Coordinate Codec stringify — "components
joined, fixed order x,y[,z[,w]]" (space-separated, the codec's wire form). -/
def coordStringify (value : JSVal) : Except String JSVal :=
  match value with
  | .obj fs =>
    .ok (jstr (String.intercalate " "
      (["x", "y", "z", "w"].filterMap fun k =>
        match fs.lookup k with
        | some p => some (primToString p)
        | none => none)))
  | v => defaultStringify v

/-- Field access `v[k]` (undefined when absent; numeric-string indexing into
arrays). -/
def getField (v : JSVal) (k : String) : JSPrim :=
  match v with
  | .obj fs => match fs.lookup k with | some p => p | none => .undefined
  | .arr xs =>
    if k ≠ "" && k.data.all Char.isDigit then
      match xs.get? (digitsVal k.data) with | some p => p | none => .undefined
    else .undefined
  | .prim _ => .undefined

/-- Modelled from the spec: the Coordinate Codec equals — "component-wise"
comparison of the `x,y,z,w` fields. -/
def coordEquals (a b : JSVal) : Bool :=
  ["x", "y", "z", "w"].all fun k => jsStrictEqP (getField a k) (getField b k)

/-- `vecParse`: delegates to the Coordinate Codec (the third `target` argument
of the source is a mutation-avoidance buffer with no observable effect on the
returned components and is not modelled). -/
def vecParse (value defaultValue : JSVal) : JSVal := coordParse value defaultValue

def assetParseFn : ParseFn := fun doc value _ => assetParse doc value

def arrayParseFn : ParseFn := fun _ value _ => arrayParse value

def boolParseFn : ParseFn := fun _ value _ => boolParse value

def intParseFn : ParseFn := fun _ value _ => intParse value

def numberParseFn : ParseFn := fun _ value _ => numberParse value

def selectorParseFn : ParseFn := fun doc value _ => selectorParse doc value

def selectorAllParseFn : ParseFn := fun doc value _ => selectorAllParse doc value

def srcParseFn : ParseFn := fun doc value _ => srcParse doc value

def vecParseFn : ParseFn := fun _ value dv => vecParse value dv

def zeroP : JSPrim := .num (.finite (mkRat 0 1))

def oneP : JSPrim := .num (.finite (mkRat 1 1))

/-- The 17 built-in registrations, in source order (lines 11–27 of
`propertyTypes.js`). -/
def builtinTypes : Registry :=
  let r : Registry := []
  let r := regStep r "audio" (jstr "") (some assetParseFn) (some assetStringify) none none
  let r := regStep r "array" (.arr []) (some arrayParseFn) (some arrayStringify) (some arrayEquals) none
  let r := regStep r "asset" (jstr "") (some assetParseFn) (some assetStringify) none none
  let r := regStep r "boolean" (jbool false) (some boolParseFn) none none none
  let r := regStep r "color" (jstr "#FFF") none none none none
  let r := regStep r "int" (jrat 0 1) (some intParseFn) none none none
  let r := regStep r "number" (jrat 0 1) (some numberParseFn) none none none
  let r := regStep r "map" (jstr "") (some assetParseFn) (some assetStringify) none none
  let r := regStep r "model" (jstr "") (some assetParseFn) (some assetStringify) none none
  let r := regStep r "selector" jsNull (some selectorParseFn) (some selectorStringify) (some defaultEquals) (some false)
  let r := regStep r "selectorAll" jsNull (some selectorAllParseFn) (some selectorAllStringify) (some arrayEquals) (some false)
  let r := regStep r "src" (jstr "") (some srcParseFn) (some assetStringify) none none
  let r := regStep r "string" (jstr "") none none none none
  let r := regStep r "time" (jrat 0 1) (some intParseFn) none none none
  let r := regStep r "vec2" (.obj [("x", zeroP), ("y", zeroP)]) (some vecParseFn) (some coordStringify) (some coordEquals) none
  let r := regStep r "vec3" (.obj [("x", zeroP), ("y", zeroP), ("z", zeroP)]) (some vecParseFn) (some coordStringify) (some coordEquals) none
  let r := regStep r "vec4" (.obj [("x", zeroP), ("y", zeroP), ("z", zeroP), ("w", oneP)]) (some vecParseFn) (some coordStringify) (some coordEquals) none
  r

/-- `Object.keys` for the values `isValidDefaultCoordinate` can reach (own
enumerable keys of objects and arrays; a DOM element exposes none). -/
def objectKeys (v : JSVal) : List String :=
  match v with
  | .obj fs => fs.map Prod.fst
  | .arr xs => (List.range xs.length).map Nat.repr
  | .prim _ => []

/-- `isValidDefaultCoordinate(possibleCoordinates, dimensions)`: null is
valid; non-objects are not; the key count must equal the arity and the named
components `x,y` (and `z`, `w` as the arity demands) must be of number type.
Note the source checks `typeof === 'number'` only — NaN and the infinities
pass. -/
def isValidDefaultCoordinate (possibleCoordinates : JSVal) (dimensions : Nat) : Bool :=
  if possibleCoordinates == jsNull then true
  else if jsTypeof possibleCoordinates != "object" then false
  else if (objectKeys possibleCoordinates).length != dimensions then false
  else
    let x := getField possibleCoordinates "x"
    let y := getField possibleCoordinates "y"
    let z := getField possibleCoordinates "z"
    let w := getField possibleCoordinates "w"
    if jsTypeofP x != "number" || jsTypeofP y != "number" then false
    else if 2 < dimensions && jsTypeofP z != "number" then false
    else if 3 < dimensions && jsTypeofP w != "number" then false
    else true

def isArrayV (v : JSVal) : Bool :=
  match v with
  | .arr _ => true
  | _ => false

/-- `isValidDefaultValue(type, defaultVal)`: the per-type shape check chain of
the source; unrecognized type names fall through to `true`. -/
def isValidDefaultValue (type : String) (defaultVal : JSVal) : Bool :=
  if type == "audio" && jsTypeof defaultVal != "string" then false
  else if type == "array" && !(isArrayV defaultVal) then false
  else if type == "asset" && jsTypeof defaultVal != "string" then false
  else if type == "boolean" && jsTypeof defaultVal != "boolean" then false
  else if type == "color" && jsTypeof defaultVal != "string" then false
  else if type == "int" && jsTypeof defaultVal != "number" then false
  else if type == "number" && jsTypeof defaultVal != "number" then false
  else if type == "map" && jsTypeof defaultVal != "string" then false
  else if type == "model" && jsTypeof defaultVal != "string" then false
  else if type == "selector" && jsTypeof defaultVal != "string" && defaultVal != jsNull then false
  else if type == "selectorAll" && jsTypeof defaultVal != "string" && defaultVal != jsNull then false
  else if type == "src" && jsTypeof defaultVal != "string" then false
  else if type == "string" && jsTypeof defaultVal != "string" then false
  else if type == "time" && jsTypeof defaultVal != "number" then false
  else if type == "vec2" then isValidDefaultCoordinate defaultVal 2
  else if type == "vec3" then isValidDefaultCoordinate defaultVal 3
  else if type == "vec4" then isValidDefaultCoordinate defaultVal 4
  else true

/-!
Embedding of `src/components/tracked-controls.js` (the button/axis state
machine).  `el.emit` calls become an emitted-event list; each emitted payload
records the fields the live detail object exposes at the moment of dispatch
(listeners run synchronously).  The reused event-detail and changed-axes
buffers are modelled by the values they hold at each emission.
-/

/-- Stored per-button state, and equally the shape of a `GamepadButton`
snapshot: `{pressed, touched, value}`. -/
structure ButtonState where
  pressed : Bool
  touched : Bool
  value : JSNum
deriving DecidableEq

/-- An event emitted on the component's element, with the payload fields read
at dispatch time.  Button payloads carry `{id, state}`; `axismove` carries
`{axis, changed}`. -/
inductive ControllerEvent where
  | buttondown (id : Nat) (state : ButtonState)
  | buttonup (id : Nat) (state : ButtonState)
  | touchstart (id : Nat) (state : ButtonState)
  | touchend (id : Nat) (state : ButtonState)
  | buttonchanged (id : Nat) (state : ButtonState)
  | axismove (axis : List JSNum) (changed : List Bool)
deriving DecidableEq

/-- `handlePress`: no change when `buttonState.pressed === previous.pressed`;
otherwise emit `buttondown`/`buttonup` (the live detail still shows the
pre-update state at dispatch) and then update the stored `pressed`. -/
def handlePress (id : Nat) (previous snapshot : ButtonState) :
    Bool × ButtonState × List ControllerEvent :=
  if snapshot.pressed == previous.pressed then (false, previous, [])
  else if snapshot.pressed then
    (true, { previous with pressed := snapshot.pressed }, [.buttondown id previous])
  else
    (true, { previous with pressed := snapshot.pressed }, [.buttonup id previous])

/-- `handleTouch`: the same pattern for the `touched` field, emitting
`touchstart`/`touchend`. -/
def handleTouch (id : Nat) (previous snapshot : ButtonState) :
    Bool × ButtonState × List ControllerEvent :=
  if snapshot.touched == previous.touched then (false, previous, [])
  else if snapshot.touched then
    (true, { previous with touched := snapshot.touched }, [.touchstart id previous])
  else
    (true, { previous with touched := snapshot.touched }, [.touchend id previous])

/-- `handleValue`: a changed analog value updates stored state only; no
dedicated event. -/
def handleValue (previous snapshot : ButtonState) :
    Bool × ButtonState × List ControllerEvent :=
  if jsNumEq snapshot.value previous.value then (false, previous, [])
  else (true, { previous with value := snapshot.value }, [])

/-- `handleButton`: the three checks run unconditionally (the source combines
their results with bitwise `|`, not short-circuiting `||`, because each call
mutates state and emits); if any changed, one `buttonchanged` is emitted after
all three, its payload showing the now-updated state. -/
def handleButton (id : Nat) (previous snapshot : ButtonState) :
    Bool × ButtonState × List ControllerEvent :=
  let rp := handlePress id previous snapshot
  let rt := handleTouch id rp.2.1 snapshot
  let rv := handleValue rt.2.1 snapshot
  let changed := rp.1 || rt.1 || rv.1
  if changed then
    (true, rv.2.1, rp.2.2 ++ rt.2.2 ++ rv.2.2 ++ [.buttonchanged id rv.2.1])
  else (false, rv.2.1, rp.2.2 ++ rt.2.2 ++ rv.2.2)

/-- The comparison loop of `handleAxes`: for each index of the new reading,
`previousAxis[i] !== controllerAxes[i]` (reading past the end of the stored
vector yields `undefined`, which never strictly equals a number). -/
def axisCompare (previousAxis : List JSNum) : Nat → List JSNum → List Bool
  | _, [] => []
  | i, n :: rest =>
    (match previousAxis.get? i with
     | some p => !(jsNumEq p n)
     | none => true) :: axisCompare previousAxis (i + 1) rest

/-- `handleAxes`: recompute the changed-axes buffer; if no component changed,
keep the stored vector and emit nothing; otherwise replace the stored vector
wholesale with the reading and emit one `axismove` whose payload shows the new
vector and the changed flags. -/
def handleAxes (storedAxis reading : List JSNum) :
    List JSNum × List Bool × List ControllerEvent :=
  let changedAxes := axisCompare storedAxis 0 reading
  if changedAxes.any (fun b => b) then
    (reading, changedAxes, [.axismove reading changedAxes])
  else (storedAxis, changedAxes, [])

/-- Set (or lazily create) the stored state for a button index. -/
def buttonStatesSet : List (Nat × ButtonState) → Nat → ButtonState → List (Nat × ButtonState)
  | [], i, v => [(i, v)]
  | (j, w) :: rest, i, v =>
    if j = i then (i, v) :: rest else (j, w) :: buttonStatesSet rest i v

/-- The initial state a button index receives on first sight:
`{pressed: false, touched: false, value: 0}`. -/
def freshButtonState : ButtonState := ⟨false, false, .finite (mkRat 0 1)⟩

/-- The per-button loop of `updateButtons`: ascending index order, lazily
initializing stored state, then `handleButton`. -/
def updateButtonsLoop (states : List (Nat × ButtonState)) (i : Nat) :
    List ButtonState → List (Nat × ButtonState) × List ControllerEvent
  | [] => (states, [])
  | b :: rest =>
    let stored := match states.lookup i with
      | some s => s
      | none => freshButtonState
    let r := handleButton i stored b
    let next := updateButtonsLoop (buttonStatesSet states i r.2.1) (i + 1) rest
    (next.1, r.2.2 ++ next.2)

/-- A gamepad snapshot: the button array and the axis array for one tick. -/
structure Gamepad where
  buttons : List ButtonState
  axes : List JSNum

/-- A matched controller: hand-tracking flag, grip-space handle, and an
optional gamepad. -/
structure Controller where
  hand : Bool
  gripSpace : Nat
  gamepad : Option Gamepad

/-- `updateButtons`: bail out silently without controller or gamepad;
otherwise run the per-button loop and then the axis diff. -/
def updateButtons (states : List (Nat × ButtonState)) (axis : List JSNum)
    (controller : Option Controller) :
    List (Nat × ButtonState) × List JSNum × List ControllerEvent :=
  match controller with
  | none => (states, axis, [])
  | some c =>
    match c.gamepad with
    | none => (states, axis, [])
    | some g =>
      let rb := updateButtonsLoop states 0 g.buttons
      let ra := handleAxes axis g.axes
      (rb.1, ra.1, rb.2 ++ ra.2.2)

/-- A pose as `frame.getPose` returns it: the transform matrix to copy. -/
structure Pose where
  transformMatrix : List JSNum
deriving DecidableEq

/-- An XR frame: `getPose(gripSpace, referenceSpace)`. -/
structure XRFrame where
  getPose : Nat → Nat → Option Pose

/-- The owning object's transform and visibility (`this.el.object3D`). -/
structure Object3D where
  visible : Bool
  matrixElements : List JSNum
  position : List JSNum
  rotation : List JSNum
  scale : List JSNum
deriving DecidableEq

/-- The component's mutable state: stored button states, the stored axis
vector (initialized `[0, 0, 0]`), the last pose, and the object transform. -/
structure TrackedControlsState where
  buttonStates : List (Nat × ButtonState)
  axis : List JSNum
  pose : Option Pose
  object3D : Object3D
deriving DecidableEq

/-- `updatePose`: with no pose, leave the transform untouched; otherwise copy
the pose matrix and decompose it into position/rotation/scale.  The decompose
math lives in the external rendering library and is passed in as a function. -/
def updatePose (decompose : List JSNum → List JSNum × List JSNum × List JSNum)
    (st : TrackedControlsState) : TrackedControlsState :=
  match st.pose with
  | none => st
  | some p =>
    let d := decompose p.transformMatrix
    { st with object3D := { st.object3D with
        matrixElements := p.transformMatrix
        position := d.1
        rotation := d.2.1
        scale := d.2.2 } }

/-- `tick`: optionally sync visibility to controller presence; silently skip
everything without a controller, frame, or reference space; skip pose and
button/axis processing for hand-tracking controllers; otherwise read the pose,
update the transform, and run the button/axis diff. -/
def tick (decompose : List JSNum → List JSNum × List JSNum × List JSNum)
    (autoHide : Bool) (controller : Option Controller) (frame : Option XRFrame)
    (referenceSpace : Option Nat) (st : TrackedControlsState) :
    TrackedControlsState × List ControllerEvent :=
  let st := if autoHide then
      { st with object3D := { st.object3D with visible := controller.isSome } }
    else st
  match controller, frame, referenceSpace with
  | some c, some f, some rs =>
    if c.hand then (st, [])
    else
      let st := { st with pose := f.getPose c.gripSpace rs }
      let st := updatePose decompose st
      let r := updateButtons st.buttonStates st.axis (some c)
      ({ st with buttonStates := r.1, axis := r.2.1 }, r.2.2)
  | _, _, _ => (st, [])

/-!
Support definitions for the claim theorems.
-/

def divEl1 : DomElement := ⟨"DIV", some "el1", none⟩

def divEl2 : DomElement := ⟨"DIV", some "el2", none⟩

def canvasEl : DomElement := ⟨"CANVAS", some "cv", none⟩

/-- A small concrete document giving the selector/asset parsers something to
resolve against when a round trip starts from element-valued internal state. -/
def testDoc : Document :=
  { byId := fun s =>
      if s = "el1" then some divEl1
      else if s = "el2" then some divEl2
      else if s = "cv" then some canvasEl
      else none
    query := fun _ => none
    queryAll := fun s => if s = "#el1, #el2" then [divEl1, divEl2] else [] }

/-- `parse(stringify(x))` is value-equal to `x` per the type's own `equals`,
with `parse` receiving the type's declared default (as the schema layer passes
it) and the ambient document `doc`. -/
def roundTripsOk (doc : Document) (name : String) (x : JSVal) : Bool :=
  match builtinTypes.lookup name with
  | none => false
  | some d =>
    match d.stringify x with
    | .error _ => false
    | .ok s => d.equals (d.parse doc s d.defaultValue) x

/-- What the array-type claim describes for string input: split on commas,
trim each segment. -/
def specSplitTrim (s : String) : List JSPrim :=
  (splitWhen (fun c => c = ',') s.data).map fun g => .str (trimStr (String.mk g))

/-- The component names a vector type of the given arity declares. -/
def vecKeys (dims : Nat) : List String := ["x", "y", "z", "w"].take dims

/-- The vector-default claim as stated: the candidate is null, or an object
whose fields are exactly the expected component names, each holding a number
(`typeof === 'number'`; NaN and the infinities qualify). -/
def SpecVecDefaultNum (dims : Nat) (v : JSVal) : Prop :=
  v = jsNull ∨ ∃ fs, v = .obj fs ∧ (fs.map Prod.fst).Perm (vecKeys dims) ∧
    ∀ k ∈ vecKeys dims, jsTypeofP (getField (.obj fs) k) = "number"

/-- The vector-default claim read with "finite numbers" taken literally: every
expected component holds a finite number. -/
def SpecVecDefaultFinite (dims : Nat) (v : JSVal) : Prop :=
  v = jsNull ∨ ∃ fs, v = .obj fs ∧ (fs.map Prod.fst).Perm (vecKeys dims) ∧
    ∀ k ∈ vecKeys dims, ∃ q : Rat, getField (.obj fs) k = .num (.finite q)

/-- A concrete component state: no buttons seen yet, the initial `[0, 0, 0]`
axis vector, no pose, an identity-ish transform. -/
def st0 : TrackedControlsState :=
  { buttonStates := []
    axis := [.finite (mkRat 0 1), .finite (mkRat 0 1), .finite (mkRat 0 1)]
    pose := none
    object3D := { visible := true, matrixElements := [], position := [], rotation := [], scale := [] } }

/-- A concrete stand-in for the external matrix decomposition. -/
def dec0 : List JSNum → List JSNum × List JSNum × List JSNum := fun m => (m, m, m)

/-- A gamepad whose single button is pressed with value 1 and one centered
axis. -/
def g0 : Gamepad := ⟨[⟨true, false, .finite (mkRat 1 1)⟩], [.finite (mkRat 0 1)]⟩

/-- A bound non-hand-tracking controller carrying `g0`. -/
def ctrl0 : Controller := ⟨false, 0, some g0⟩

/-- A frame that yields no pose for any space pair. -/
def frame0 : XRFrame := ⟨fun _ _ => none⟩

/-!
Claim theorems.
-/

/-- C1: for every button index, diffing a snapshot against stored state
evaluates the pressed, touched and value checks unconditionally — the result
is the sequential composition of all three, never short-circuited; a pressed
change emits `buttondown`/`buttonup` and then updates stored state, a touched
change emits `touchstart`/`touchend` and then updates stored state, a value
change only updates stored state; if any of the three changed, exactly one
`buttonchanged` follows the three checks, carrying the index and the
now-updated state.  In particular, from stored
`{pressed: false, touched: false, value: 0}` and snapshot
`{pressed: true, touched: true, value: 0.5}`, the emitted sequence is
`buttondown`, `touchstart`, `buttonchanged`, in that order, and the stored
state afterwards is `{pressed: true, touched: true, value: 0.5}`. -/
theorem handleButton_diff_spec (id : Nat) (previous snapshot : ButtonState) :
    (handleButton id previous snapshot =
      (let pressedChanged := !(snapshot.pressed == previous.pressed)
       let touchedChanged := !(snapshot.touched == previous.touched)
       let valueChanged := !(jsNumEq snapshot.value previous.value)
       let afterPress : ButtonState := { previous with pressed := snapshot.pressed }
       let finalState : ButtonState :=
         { pressed := snapshot.pressed, touched := snapshot.touched,
           value := if valueChanged then snapshot.value else previous.value }
       (pressedChanged || touchedChanged || valueChanged,
        finalState,
        (if pressedChanged then
           [if snapshot.pressed then .buttondown id previous else .buttonup id previous]
         else []) ++
        (if touchedChanged then
           [if snapshot.touched then .touchstart id afterPress else .touchend id afterPress]
         else []) ++
        (if pressedChanged || touchedChanged || valueChanged then
           [.buttonchanged id finalState]
         else [])))) ∧
    handleButton 0 ⟨false, false, .finite (mkRat 0 1)⟩ ⟨true, true, .finite (mkRat 1 2)⟩ =
      (true, ⟨true, true, .finite (mkRat 1 2)⟩,
       [.buttondown 0 ⟨false, false, .finite (mkRat 0 1)⟩,
        .touchstart 0 ⟨true, false, .finite (mkRat 0 1)⟩,
        .buttonchanged 0 ⟨true, true, .finite (mkRat 1 2)⟩]) := by
  refine ⟨?_, by decide⟩
  obtain ⟨p1, t1, v1⟩ := previous
  obtain ⟨p2, t2, v2⟩ := snapshot
  cases hv : jsNumEq v2 v1 <;> cases p1 <;> cases p2 <;> cases t1 <;> cases t2 <;>
    simp [handleButton, handlePress, handleTouch, handleValue, hv]

/-- The indexed comparison loop of `handleAxes` computes, for each index of
the reading, whether the stored value at that index strictly differs. -/
theorem axisCompare_eq (prev reading : List JSNum) : ∀ i,
    axisCompare prev i reading = (List.range reading.length).map fun j =>
      match prev.get? (i + j), reading.get? j with
      | some p, some n => !(jsNumEq p n)
      | _, _ => true := by
  induction reading with
  | nil => intro i; rfl
  | cons n rest ih =>
    intro i
    simp only [axisCompare, List.length_cons, List.range_succ_eq_map, List.map_cons,
      List.map_map]
    congr 1
    · simp only [Nat.add_zero, List.get?]
      cases prev.get? i <;> rfl
    · rw [ih (i + 1)]
      apply List.map_congr_left
      intro j _
      simp only [Function.comp]
      have h1 : i + 1 + j = i + (j + 1) := by omega
      rw [h1]
      rfl

/-- C2: the axis diff compares every element of the new reading against the
stored vector; when no compared element differs, nothing is emitted and the
stored vector is unchanged; when at least one differs, the stored vector is
replaced wholesale by the reading and exactly one `axismove` is emitted,
carrying the full new vector and the parallel changed-flags vector that is
true exactly at the differing indices.  In particular, stored `[0,0]` with
reading `[0,0]` emits nothing, and stored `[0,0]` with reading `[0.3,0]`
emits one `axismove` with `changed = [true, false]`. -/
theorem handleAxes_diff_spec (storedAxis reading : List JSNum) :
    (handleAxes storedAxis reading =
      (let changedVec := (List.range reading.length).map fun j =>
        match storedAxis.get? j, reading.get? j with
        | some p, some n => !(jsNumEq p n)
        | _, _ => true
      if changedVec.any fun b => b then (reading, changedVec, [.axismove reading changedVec])
      else (storedAxis, changedVec, []))) ∧
    handleAxes [.finite (mkRat 0 1), .finite (mkRat 0 1)] [.finite (mkRat 0 1), .finite (mkRat 0 1)] =
      ([.finite (mkRat 0 1), .finite (mkRat 0 1)], [false, false], []) ∧
    handleAxes [.finite (mkRat 0 1), .finite (mkRat 0 1)] [.finite (mkRat 3 10), .finite (mkRat 0 1)] =
      ([.finite (mkRat 3 10), .finite (mkRat 0 1)], [true, false],
       [.axismove [.finite (mkRat 3 10), .finite (mkRat 0 1)] [true, false]]) := by
  refine ⟨?_, by decide, by decide⟩
  have h := axisCompare_eq storedAxis reading 0
  simp only [Nat.zero_add] at h
  simp only [handleAxes, h]

/-- C3: registering a name already present fails with the duplicate-type
error, and the registry — hence the entry the first registration created — is
left exactly as it was by the failed call. -/
theorem registerPropertyType_duplicate (r : Registry) (type : String) (dv : JSVal)
    (p : Option ParseFn) (s : Option StringifyFn) (e : Option EqualsFn) (c : Option Bool)
    (h : (r.lookup type).isSome) :
    registerPropertyType r type dv p s e c =
      .error ("Property type " ++ type ++ " is already registered.") ∧
    regStep r type dv p s e c = r := by
  have h1 : registerPropertyType r type dv p s e c =
      .error ("Property type " ++ type ++ " is already registered.") := by
    unfold registerPropertyType
    rw [if_pos h]
  refine ⟨h1, ?_⟩
  unfold regStep
  rw [h1]

/-- Witness for C3: re-registering the built-in `boolean` type fails with the
duplicate error and leaves the built-in table unchanged. -/
theorem registerPropertyType_duplicate_witness :
    registerPropertyType builtinTypes "boolean" (jbool false) none none none none =
      .error "Property type boolean is already registered." ∧
    regStep builtinTypes "boolean" (jbool false) none none none none = builtinTypes :=
  registerPropertyType_duplicate builtinTypes "boolean" (jbool false)
    none none none none (by decide)

/-- C4: for every registered built-in type, `parse(stringify(x))` is
value-equal to `x` (per that type's own `equals`) at representative internal
values, including the edge values the specification lists: the empty array,
the zero vectors, boolean `false`, and a negative integer. -/
theorem builtin_types_round_trip :
    roundTripsOk testDoc "boolean" (jbool false) = true ∧
    roundTripsOk testDoc "boolean" (jbool true) = true ∧
    roundTripsOk testDoc "int" (jrat (-7) 1) = true ∧
    roundTripsOk testDoc "number" (jrat 5 2) = true ∧
    roundTripsOk testDoc "number" (jrat 0 1) = true ∧
    roundTripsOk testDoc "string" (jstr "") = true ∧
    roundTripsOk testDoc "string" (jstr "hello") = true ∧
    roundTripsOk testDoc "color" (jstr "#FFF") = true ∧
    roundTripsOk testDoc "array" (.arr []) = true ∧
    roundTripsOk testDoc "array" (.arr [.str "a", .str "b"]) = true ∧
    roundTripsOk testDoc "audio" (jstr "") = true ∧
    roundTripsOk testDoc "asset" (jstr "") = true ∧
    roundTripsOk testDoc "asset" (jstr "foo.png") = true ∧
    roundTripsOk testDoc "asset" (.prim (.elem canvasEl)) = true ∧
    roundTripsOk testDoc "map" (jstr "") = true ∧
    roundTripsOk testDoc "model" (jstr "") = true ∧
    roundTripsOk testDoc "src" (jstr "") = true ∧
    roundTripsOk testDoc "time" (jrat 0 1) = true ∧
    roundTripsOk testDoc "selector" (.prim (.elem divEl1)) = true ∧
    roundTripsOk testDoc "selectorAll" (.arr [.elem divEl1, .elem divEl2]) = true ∧
    roundTripsOk testDoc "vec2" (.obj [("x", zeroP), ("y", zeroP)]) = true ∧
    roundTripsOk testDoc "vec3" (.obj [("x", zeroP), ("y", zeroP), ("z", zeroP)]) = true ∧
    roundTripsOk testDoc "vec4" (.obj [("x", zeroP), ("y", zeroP), ("z", zeroP), ("w", zeroP)]) = true ∧
    roundTripsOk testDoc "vec4" (.obj [("x", zeroP), ("y", zeroP), ("z", zeroP), ("w", oneP)]) = true := by
  decide

/-- C5 counterexample: the claim says every string input is split on commas
and trimmed, but splitting the empty string would give `[""]`, while
`arrayParse` returns `[]` — the falsy check fires first. -/
theorem arrayParse_empty_string_cex :
    specSplitTrim "" = [JSPrim.str ""] ∧
    arrayParse (jstr "") = .arr [] ∧
    arrayParse (jstr "") ≠ .arr (specSplitTrim "") := by decide

/-- C5 (amended): sequences pass through unchanged; every non-empty string is
split on commas with each segment trimmed (so `"a, b ,c"` yields
`["a","b","c"]`); every other input — null, non-string, non-sequence, and
also the empty string — yields the empty sequence. -/
theorem arrayParse_cases :
    (∀ xs, arrayParse (.arr xs) = .arr xs) ∧
    (∀ s, s ≠ "" → arrayParse (jstr s) = .arr (specSplitTrim s)) ∧
    (∀ v, (∀ xs, v ≠ .arr xs) → (∀ s, v ≠ jstr s) → arrayParse v = .arr []) ∧
    arrayParse (jstr "") = .arr [] ∧
    arrayParse (jstr "a, b ,c") = .arr [.str "a", .str "b", .str "c"] ∧
    arrayParse (.arr [oneP, .num (.finite (mkRat 2 1))]) = .arr [oneP, .num (.finite (mkRat 2 1))] := by
  refine ⟨fun xs => rfl, fun s hs => ?_, fun v h1 h2 => ?_, by decide, by decide, by decide⟩
  · simp [arrayParse, jstr, hs, specSplitTrim]
  · cases v with
    | prim p =>
      cases p with
      | str s => exact absurd rfl (h2 s)
      | _ => rfl
    | arr xs => exact absurd rfl (h1 xs)
    | obj fs => rfl

/-- Witness for C5 (amended): a concrete non-empty string goes through the
split-and-trim branch. -/
theorem arrayParse_cases_witness :
    arrayParse (jstr " x ,y") = .arr (specSplitTrim " x ,y") :=
  arrayParse_cases.2.1 " x ,y" (by decide)

/-- A key missing from an association list's key column has no binding. -/
theorem lookup_none_of_notin_keys (fs : List (String × JSPrim)) (k : String)
    (h : k ∉ fs.map Prod.fst) : fs.lookup k = none := by
  induction fs with
  | nil => rfl
  | cons a rest ih =>
    simp only [List.map_cons, List.mem_cons, not_or] at h
    have hb : (k == a.1) = false := by simpa using h.1
    simp only [List.lookup, hb]
    exact ih h.2

/-- A field whose value has number type is present among the object's keys
(an absent field reads as `undefined`, whose type is not `"number"`). -/
theorem mem_keys_of_typeof_num (fs : List (String × JSPrim)) (k : String)
    (h : jsTypeofP (getField (.obj fs) k) = "number") : k ∈ fs.map Prod.fst := by
  by_contra hnot
  rw [show getField (.obj fs) k = (match fs.lookup k with | some p => p | none => .undefined) from rfl,
    lookup_none_of_notin_keys fs k hnot] at h
  simp [jsTypeofP] at h

/-- An object with exactly `dims` fields whose expected vector components all
have number type carries exactly the expected component names. -/
theorem keys_perm_of_coords (fs : List (String × JSPrim)) (dims : Nat)
    (hd : dims ≤ 4) (hlen : fs.length = dims)
    (hmem : ∀ k ∈ vecKeys dims, jsTypeofP (getField (.obj fs) k) = "number") :
    (fs.map Prod.fst).Perm (vecKeys dims) := by
  have hnd : (vecKeys dims).Nodup := by
    have : (["x", "y", "z", "w"] : List String).Nodup := by decide
    exact this.sublist (List.take_sublist _ _)
  have hsub : vecKeys dims ⊆ fs.map Prod.fst := by
    intro k hk
    exact mem_keys_of_typeof_num fs k (hmem k hk)
  have hsp := List.subperm_of_subset hnd hsub
  have hle : (fs.map Prod.fst).length ≤ (vecKeys dims).length := by
    rw [List.length_map, hlen]
    simp [vecKeys]
    omega
  exact (hsp.perm_of_length_le hle).symm

/-- On an object, `isValidDefaultCoordinate` amounts to: the field count
equals the arity and each expected component has number type. -/
theorem coordValid_obj_iff (fs : List (String × JSPrim)) (dims : Nat)
    (h2 : 2 ≤ dims) (h4 : dims ≤ 4) :
    isValidDefaultCoordinate (.obj fs) dims = true ↔
      (fs.length = dims ∧ ∀ k ∈ vecKeys dims, jsTypeofP (getField (.obj fs) k) = "number") := by
  have hstep : isValidDefaultCoordinate (.obj fs) dims =
      (if (fs.map Prod.fst).length != dims then false
       else if jsTypeofP (getField (.obj fs) "x") != "number"
            || jsTypeofP (getField (.obj fs) "y") != "number" then false
       else if decide (2 < dims) && (jsTypeofP (getField (.obj fs) "z") != "number") then false
       else if decide (3 < dims) && (jsTypeofP (getField (.obj fs) "w") != "number") then false
       else true) := rfl
  rw [hstep, List.length_map]
  by_cases hlen : fs.length = dims
  · by_cases hx : jsTypeofP (getField (.obj fs) "x") = "number" <;>
      by_cases hy : jsTypeofP (getField (.obj fs) "y") = "number" <;>
        by_cases hz : jsTypeofP (getField (.obj fs) "z") = "number" <;>
          by_cases hw : jsTypeofP (getField (.obj fs) "w") = "number" <;>
            rcases (show dims = 2 ∨ dims = 3 ∨ dims = 4 by omega) with h | h | h <;>
              subst h <;>
                simp_all [vecKeys]
  · simp_all [vecKeys]

/-- For each vector arity, the default-coordinate validator accepts exactly
null and the objects with the expected number-typed component fields. -/
theorem coordValid_iff (dims : Nat) (h2 : 2 ≤ dims) (h4 : dims ≤ 4) (v : JSVal) :
    isValidDefaultCoordinate v dims = true ↔ SpecVecDefaultNum dims v := by
  cases v with
  | prim p =>
    cases p with
    | null => simp [isValidDefaultCoordinate, SpecVecDefaultNum, jsNull]
    | undefined => simp [isValidDefaultCoordinate, SpecVecDefaultNum, jsNull, jsTypeof, jsTypeofP]
    | bool b => simp [isValidDefaultCoordinate, SpecVecDefaultNum, jsNull, jsTypeof, jsTypeofP]
    | num n => simp [isValidDefaultCoordinate, SpecVecDefaultNum, jsNull, jsTypeof, jsTypeofP]
    | str s => simp [isValidDefaultCoordinate, SpecVecDefaultNum, jsNull, jsTypeof, jsTypeofP]
    | elem e =>
      have hstep : isValidDefaultCoordinate (.prim (.elem e)) dims =
          (if (0 : Nat) != dims then false else false) := rfl
      rw [hstep]
      have : ((0 : Nat) != dims) = true := by
        simp only [bne_iff_ne]
        omega
      rw [this]
      simp [SpecVecDefaultNum, jsNull]
  | arr xs =>
    have hstep : isValidDefaultCoordinate (.arr xs) dims =
        (if ((List.range xs.length).map Nat.repr).length != dims then false else false) := rfl
    rw [hstep, List.length_map, List.length_range]
    simp [SpecVecDefaultNum, jsNull]
  | obj fs =>
    rw [coordValid_obj_iff fs dims h2 h4]
    constructor
    · rintro ⟨hlen, hmem⟩
      exact Or.inr ⟨fs, rfl, keys_perm_of_coords fs dims h4 hlen hmem, hmem⟩
    · rintro (h | ⟨fs2, hv, hperm, hmem⟩)
      · simp [jsNull] at h
      · have hfs : fs2 = fs := by injection hv with h1; exact h1.symm
        subst hfs
        refine ⟨?_, hmem⟩
        have hl := hperm.length_eq
        rw [List.length_map] at hl
        rw [hl]
        simp only [vecKeys, List.length_take, List.length_cons, List.length_nil]
        omega

/-- C6 counterexample: the validator checks `typeof === 'number'` only, so an
object whose components are NaN is accepted for `vec2`, though the claim
demands finite numbers. -/
theorem isValidDefaultValue_accepts_nonfinite :
    isValidDefaultValue "vec2" (.obj [("x", .num .nan), ("y", .num .nan)]) = true ∧
    ¬ SpecVecDefaultFinite 2 (.obj [("x", .num .nan), ("y", .num .nan)]) := by
  refine ⟨by decide, ?_⟩
  rintro (h | ⟨fs, hv, hperm, hfin⟩)
  · simp [jsNull] at h
  · have hfs : fs = [("x", JSPrim.num .nan), ("y", JSPrim.num .nan)] := by
      injection hv with h1
      exact h1.symm
    subst hfs
    obtain ⟨q, hq⟩ := hfin "x" (by simp [vecKeys])
    simp [getField, List.lookup] at hq

/-- C6 (amended): for every vector type and candidate default, the validator
accepts the value iff it is null or an object with exactly the expected named
fields for that arity, all of number type (`typeof === 'number'`; finiteness
is not checked, so NaN and the infinities also pass); in particular
`isValidDefaultValue('vec3', {x:0, y:0})` is false (wrong arity) and
`isValidDefaultValue('vec3', null)` is true. -/
theorem isValidDefaultValue_vec_spec (v : JSVal) :
    (isValidDefaultValue "vec2" v = true ↔ SpecVecDefaultNum 2 v) ∧
    (isValidDefaultValue "vec3" v = true ↔ SpecVecDefaultNum 3 v) ∧
    (isValidDefaultValue "vec4" v = true ↔ SpecVecDefaultNum 4 v) ∧
    isValidDefaultValue "vec3" (.obj [("x", zeroP), ("y", zeroP)]) = false ∧
    isValidDefaultValue "vec3" jsNull = true := by
  have hv2 : isValidDefaultValue "vec2" v = isValidDefaultCoordinate v 2 := rfl
  have hv3 : isValidDefaultValue "vec3" v = isValidDefaultCoordinate v 3 := rfl
  have hv4 : isValidDefaultValue "vec4" v = isValidDefaultCoordinate v 4 := rfl
  refine ⟨?_, ?_, ?_, by decide, by decide⟩
  · rw [hv2]; exact coordValid_iff 2 (by omega) (by omega) v
  · rw [hv3]; exact coordValid_iff 3 (by omega) (by omega) v
  · rw [hv4]; exact coordValid_iff 4 (by omega) (by omega) v

/-- Witness for C6 (amended): at the concrete candidate `null`, the `vec2`
equivalence yields acceptance. -/
theorem isValidDefaultValue_vec_spec_witness :
    isValidDefaultValue "vec2" jsNull = true :=
  ((isValidDefaultValue_vec_spec jsNull).1).mpr (Or.inl rfl)

/-- Looking a key up past a list that does not bind it continues in the
appended tail. -/
theorem lookup_append_of_none (l1 l2 : Registry) (k : String) (h : l1.lookup k = none) :
    (l1 ++ l2).lookup k = l2.lookup k := by
  induction l1 with
  | nil => rfl
  | cons a rest ih =>
    cases hb : k == a.1
    · simp only [List.cons_append, List.lookup, hb] at h ⊢
      exact ih h
    · simp only [List.lookup, hb] at h
      exact absurd h (by simp)

/-- C7: registering with the optional arguments omitted stores identity parse,
the default stringify (the literal `"null"` for null, `toString` otherwise —
`undefined`, which has no `toString`, throws), strict-equality equals, and
`isCacheable = true` (cacheable defaults to true); among the built-ins,
`isCacheable` is false exactly for `selector` and `selectorAll`. -/
theorem registerPropertyType_defaults (r : Registry) (type : String) (dv : JSVal)
    (h : r.lookup type = none) :
    (regStep r type dv none none none none).lookup type =
      some { defaultValue := dv, parse := defaultParseFn, stringify := defaultStringify,
             equals := defaultEquals, isCacheable := true } ∧
    (∀ doc v d, defaultParseFn doc v d = v) ∧
    defaultStringify jsNull = .ok (jstr "null") ∧
    (∀ v, v ≠ jsNull → v ≠ jsUndefined → defaultStringify v = .ok (jstr (jsToString v))) ∧
    (∀ a b, defaultEquals a b = jsStrictEq a b) ∧
    builtinTypes.map (fun p => (p.1, p.2.isCacheable)) =
      [("audio", true), ("array", true), ("asset", true), ("boolean", true), ("color", true),
       ("int", true), ("number", true), ("map", true), ("model", true), ("selector", false),
       ("selectorAll", false), ("src", true), ("string", true), ("time", true),
       ("vec2", true), ("vec3", true), ("vec4", true)] := by
  refine ⟨?_, fun _ _ _ => rfl, rfl, ?_, fun _ _ => rfl, by decide⟩
  · have hnone : (r.lookup type).isSome = false := by rw [h]; rfl
    simp only [regStep, registerPropertyType, hnone, Bool.false_eq_true, if_false]
    rw [lookup_append_of_none r _ type h]
    simp [List.lookup]
  · intro v h1 h2
    cases v with
    | prim p =>
      cases p with
      | null => exact absurd rfl h1
      | undefined => exact absurd rfl h2
      | bool b => rfl
      | num n => rfl
      | str s => rfl
      | elem e => rfl
    | arr xs => rfl
    | obj fs => rfl

/-- Witness for C7: registering a fresh name into the empty table with all
optional arguments omitted yields a cacheable descriptor, and the default
stringify maps null to the string `"null"`. -/
theorem registerPropertyType_defaults_witness :
    ((regStep [] "mytype" (jstr "#ABC") none none none none).lookup "mytype").map
        (fun d => d.isCacheable) = some true ∧
    defaultStringify jsNull = .ok (jstr "null") := by
  have h := registerPropertyType_defaults [] "mytype" (jstr "#ABC") rfl
  refine ⟨?_, h.2.2.1⟩
  rw [h.1]
  rfl

/-- C8: on a tick with no bound controller, no frame, or no reference space,
and likewise when the bound controller carries a hand-tracking pose, the tick
performs no pose, button, or axis processing: it emits nothing, leaves the
stored button and axis state, the pose, and the transform untouched (only the
autoHide visibility sync runs), and — being a total function emitting no
diagnostics — neither throws nor logs. -/
theorem tick_guard_skips (decompose : List JSNum → List JSNum × List JSNum × List JSNum)
    (autoHide : Bool) (controller : Option Controller) (frame : Option XRFrame)
    (referenceSpace : Option Nat) (st : TrackedControlsState)
    (h : controller = none ∨ frame = none ∨ referenceSpace = none ∨
         ∃ c, controller = some c ∧ c.hand = true) :
    tick decompose autoHide controller frame referenceSpace st =
      ({ st with object3D := { st.object3D with
          visible := if autoHide then controller.isSome else st.object3D.visible } }, []) := by
  cases autoHide <;>
    rcases controller with _ | c <;>
      rcases frame with _ | f <;>
        rcases referenceSpace with _ | rs <;>
          simp [tick] <;>
            rcases h with h | h | h | ⟨c2, hc, hh⟩ <;>
              simp_all [tick]

/-- Witness for C8: a tick with no controller at all only hides the entity. -/
theorem tick_guard_skips_witness :
    tick dec0 true none none none st0 =
      ({ st0 with object3D := { st0.object3D with visible := false } }, []) :=
  tick_guard_skips dec0 true none none none st0 (Or.inl rfl)

/-- C10: when a non-hand controller with a gamepad is bound, a frame and
reference space exist, but the frame yields no pose, the owning object's
transform — matrix, position, rotation, scale — is left unchanged, while
button and axis processing still runs in full: the stored button and axis
state and the emitted events are exactly those of the `updateButtons` pass. -/
theorem tick_null_pose (decompose : List JSNum → List JSNum × List JSNum × List JSNum)
    (autoHide : Bool) (c : Controller) (f : XRFrame) (rs : Nat) (g : Gamepad)
    (st : TrackedControlsState)
    (hhand : c.hand = false) (hg : c.gamepad = some g)
    (hpose : f.getPose c.gripSpace rs = none) :
    (tick decompose autoHide (some c) (some f) (some rs) st).1.object3D.matrixElements =
      st.object3D.matrixElements ∧
    (tick decompose autoHide (some c) (some f) (some rs) st).1.object3D.position =
      st.object3D.position ∧
    (tick decompose autoHide (some c) (some f) (some rs) st).1.object3D.rotation =
      st.object3D.rotation ∧
    (tick decompose autoHide (some c) (some f) (some rs) st).1.object3D.scale =
      st.object3D.scale ∧
    (tick decompose autoHide (some c) (some f) (some rs) st).1.buttonStates =
      (updateButtons st.buttonStates st.axis (some c)).1 ∧
    (tick decompose autoHide (some c) (some f) (some rs) st).1.axis =
      (updateButtons st.buttonStates st.axis (some c)).2.1 ∧
    (tick decompose autoHide (some c) (some f) (some rs) st).2 =
      (updateButtons st.buttonStates st.axis (some c)).2.2 := by
  cases autoHide <;>
    simp_all [tick, updatePose, updateButtons]

/-- Witness for C10: with a pressed button under a pose-less frame, the
transform stays put while `buttondown` and `buttonchanged` fire. -/
theorem tick_null_pose_witness :
    (tick dec0 true (some ctrl0) (some frame0) (some 0) st0).1.object3D.matrixElements = [] ∧
    (tick dec0 true (some ctrl0) (some frame0) (some 0) st0).2 =
      [.buttondown 0 freshButtonState,
       .buttonchanged 0 ⟨true, false, .finite (mkRat 1 1)⟩] := by
  have h := tick_null_pose dec0 true ctrl0 frame0 0 g0 st0 rfl rfl rfl
  exact ⟨h.1, h.2.2.2.2.2.2.trans (by decide)⟩

/-- C9: the falsy check precedes the string-splitting branch, so `arrayParse`
maps `""` to `[]` (not to `[""]`), which is exactly what closes the round trip
for the empty array: `stringify [] = ""` and `parse "" = []`. -/
theorem arrayParse_empty_round_trip :
    arrayParse (jstr "") = .arr [] ∧
    arrayParse (jstr "") ≠ .arr [.str ""] ∧
    arrayStringify (.arr []) = .ok (jstr "") ∧
    roundTripsOk testDoc "array" (.arr []) = true := by decide
